import Mathlib

/-! Overview.

Verification of the skylar workload generator against its specification.

The Rust source is shallowly embedded: pure functions become Lean
functions, the random number generator and the store session become
explicit parameters, and `f64` arithmetic is modelled over `ℚ` with an
explicit NaN value (`Fl := Option ℚ`, `none` = NaN), which is what the
claims about `calculate_pacing` need (Rust `x % 0.0` is NaN, and every
comparison against NaN is false).
-/

set_option maxRecDepth 100000

namespace Skylar

/-! Section: Float model for `calculate_pacing` (src/app/tasks.rs)

`Fl` models an `f64` that is either a finite rational or NaN.  The
call sites of `calculate_pacing` pass finite values, and no operation
in the function can produce an infinity on the inputs the claims are
about, so NaN is the only non-finite value that must be represented:
it arises exactly from the modulo with a zero divisor. -/

/-- A modelled `f64` value: `some q` is the finite value `q`, `none` is NaN. -/
def Fl : Type := Option ℚ

/-- Embed a finite rational as a modelled float. -/
def flit (q : ℚ) : Fl := some q

/-- Addition; NaN absorbs, as in IEEE 754. -/
def fadd : Fl → Fl → Fl
  | some a, some b => some (a + b)
  | _, _ => none

/-- Subtraction; NaN absorbs. -/
def fsub : Fl → Fl → Fl
  | some a, some b => some (a - b)
  | _, _ => none

/-- Multiplication; NaN absorbs.  (An infinity cannot arise at the use
sites: every multiplication in `calculate_pacing` has finite operands.) -/
def fmul : Fl → Fl → Fl
  | some a, some b => some (a * b)
  | _, _ => none

/-- Division.  A zero divisor is mapped to `none`: in `calculate_pacing`
the only division whose divisor can be zero is `t / quarter_period` with
`quarter_period = rate_period / 4 = 0`, and that division is unreachable
(when `rate_period = 0` the modulo already produced NaN, so every phase
comparison is false and no ramp branch runs), so the choice between NaN
and an IEEE infinity here is immaterial to the modelled function. -/
def fdiv : Fl → Fl → Fl
  | some a, some b => if b = 0 then none else some (a / b)
  | _, _ => none

/-- Truncation toward zero, the rounding Rust's `%` on floats uses. -/
def ratTrunc (q : ℚ) : ℚ := if 0 ≤ q then (⌊q⌋ : ℚ) else (⌈q⌉ : ℚ)

/-- Rust `a % b` on `f64`: `a - b * trunc (a / b)`; NaN when the divisor
is zero (IEEE `fmod` with a zero divisor is NaN) or an operand is NaN. -/
def fmod : Fl → Fl → Fl
  | some a, some b => if b = 0 then none else some (a - b * ratTrunc (a / b))
  | _, _ => none

/-- Strict less-than; false whenever an operand is NaN, as in IEEE 754. -/
def flt : Fl → Fl → Bool
  | some a, some b => decide (a < b)
  | _, _ => false

/-- Strict greater-than; false whenever an operand is NaN. -/
def fgt : Fl → Fl → Bool
  | some a, some b => decide (b < a)
  | _, _ => false

/-- Rust `f64::max`: when one operand is NaN the other is returned. -/
def fmax : Fl → Fl → Fl
  | some a, some b => some (max a b)
  | some a, none => some a
  | none, some b => some b
  | none, none => none

/-- Rust `as u64` on an `f64`: truncate toward zero, saturating below at
0 (and NaN casts to 0).  The saturation above at `2^64 - 1` is left out:
every value cast in `calculate_pacing` is at most `1000`. -/
def fToU64 : Fl → ℕ
  | none => 0
  | some q => if q < 0 then 0 else (⌊q⌋).toNat

/-- The `rate` computed inside `App::calculate_pacing`
(src/app/tasks.rs lines 189–207): the four-phase waveform — rising ramp,
peak, falling ramp, trough — when both bounds are positive, the constant
`rate_max` otherwise. -/
def pacing_rate (rate_min rate_max rate_period elapsed : ℚ) : Fl :=
  let quarter_period : Fl := fdiv (flit rate_period) (flit 4)
  if 0 < rate_min ∧ 0 < rate_max then
    let t : Fl := fmod (flit elapsed) (flit rate_period)
    if flt t quarter_period then
      -- Rise
      fadd (flit rate_min)
        (fmul (fsub (flit rate_max) (flit rate_min)) (fdiv t quarter_period))
    else if flt t (fmul (flit 2) quarter_period) then
      -- Peak
      flit rate_max
    else if flt t (fmul (flit 3) quarter_period) then
      -- Fall
      fsub (flit rate_max)
        (fmul (fsub (flit rate_max) (flit rate_min))
          (fdiv (fsub t (fmul (flit 2) quarter_period)) quarter_period))
    else
      -- Trough
      flit rate_min
  else
    flit rate_max

/-- Models `App::calculate_pacing` (src/app/tasks.rs lines 188–214), returning
the delay in milliseconds (the argument of `Duration::from_millis`):
`(1000.0 / rate).max(1.0) as u64` when `rate > 0.0`, else `0`. -/
def calculate_pacing (rate_min rate_max rate_period elapsed : ℚ) : ℕ :=
  let rate : Fl := pacing_rate rate_min rate_max rate_period elapsed
  if fgt rate (flit 0) then fToU64 (fmax (fdiv (flit 1000) rate) (flit 1)) else 0

/-- Claim C6: with `rate_min = 10`, `rate_max = 100`, `rate_period = 40`
the pacing computation follows the four-phase waveform with target delay
`max(1 ms, 1000 ms / rate)`: at `elapsed = 0` the rate is 10 and the
delay is 100 ms; at `elapsed = 15` (peak phase) the rate is 100 and the
delay is 10 ms; at `elapsed = 35` (trough phase) the rate is 10 and the
delay is 100 ms. -/
theorem claim_C6_waveform_example :
    pacing_rate 10 100 40 0 = flit 10 ∧ calculate_pacing 10 100 40 0 = 100 ∧
    pacing_rate 10 100 40 15 = flit 100 ∧ calculate_pacing 10 100 40 15 = 10 ∧
    pacing_rate 10 100 40 35 = flit 10 ∧ calculate_pacing 10 100 40 35 = 100 ∧
    (100 : ℕ) = max 1 (1000 / 10) ∧ (10 : ℕ) = max 1 (1000 / 100) := by
  refine ⟨?_, ?_, ?_, ?_, ?_, ?_, by norm_num, by norm_num⟩ <;>
    norm_num [calculate_pacing, pacing_rate, fmod, fdiv, flit, flt, fadd, fsub, fmul, fgt,
      fmax, fToU64, ratTrunc, Int.toNat]

/-- Claim C3, counterexample: with `rate_min = 10`, `rate_max = 100`,
`rate_period = 0`, `elapsed = 0` the code yields the min-rate delay of
100 ms, not the constant max-rate delay of 10 ms that constant-rate mode
(`rate_min = 0`, so `rate = rate_max = 100`) yields: `elapsed % 0.0` is
NaN, every phase comparison against NaN is false, and the trough branch
returns `rate_min`. -/
theorem claim_C3_counterexample :
    calculate_pacing 10 100 0 0 = 100 ∧ calculate_pacing 0 100 0 0 = 10 ∧
    calculate_pacing 10 100 0 0 ≠ calculate_pacing 0 100 0 0 := by
  refine ⟨?h1, ?h2, ?h3⟩ <;>
    norm_num [calculate_pacing, pacing_rate, fmod, fdiv, flit, flt, fadd, fsub, fmul, fgt,
      fmax, fToU64, ratTrunc, Int.toNat]

/-- Claim C3, amended: for every `rate_min > 0` and `rate_max > 0`,
calling the pacing computation with `rate_period = 0` produces no
division error (the modelled function is total: `elapsed % 0.0` is NaN,
not a trap) and returns the constant *min*-rate delay — the NaN modulo
makes every phase comparison false, so the trough branch yields
`rate = rate_min` and the delay is `(1000 / rate_min).max(1)` ms,
truncated to an integer. -/
theorem claim_C3_amended (rate_min rate_max elapsed : ℚ)
    (hmin : 0 < rate_min) (hmax : 0 < rate_max) :
    calculate_pacing rate_min rate_max 0 elapsed = (⌊max (1000 / rate_min) 1⌋).toNat := by
  have hne : rate_min ≠ 0 := ne_of_gt hmin
  have hnonneg : ¬ (max (1000 / rate_min) 1 : ℚ) < 0 := by
    simp only [not_lt]
    exact le_trans (by norm_num) (le_max_right _ _)
  simp [calculate_pacing, pacing_rate, fmod, fdiv, flit, flt, fgt, fmax, fToU64,
    hmin, hmax, hne, hnonneg]

/-- Witness for `claim_C3_amended` at `rate_min = 10`, `rate_max = 100`,
`elapsed = 0`: the delay is `⌊max (1000/10) 1⌋.toNat = 100` ms. -/
theorem claim_C3_witness :
    calculate_pacing 10 100 0 0 = (⌊max ((1000 : ℚ) / 10) 1⌋).toNat :=
  claim_C3_amended 10 100 0 (by norm_num) (by norm_num)

/-! Section: Tab navigation (src/app.rs lines 48–57 and 466–478)

`SelectedTab` derives `FromRepr`: `from_repr` maps a discriminant back
to a variant, returning `None` out of range.  `next`/`previous` move by
one index with saturating arithmetic and `unwrap_or(self)`. -/

/-- The `SelectedTab` enum: `Metrics`, `Samples`, `System`. -/
inductive SelectedTab : Type
  | Metrics
  | Samples
  | System
  deriving DecidableEq

/-- Models `self as usize`: the discriminant of a `SelectedTab` variant. -/
def SelectedTab.toIndex : SelectedTab → ℕ
  | .Metrics => 0
  | .Samples => 1
  | .System => 2

/-- The derived `SelectedTab::from_repr`: variant of a discriminant,
`none` when the discriminant is out of range. -/
def SelectedTab.fromRepr : ℕ → Option SelectedTab
  | 0 => some .Metrics
  | 1 => some .Samples
  | 2 => some .System
  | _ => none

/-- Models `SelectedTab::previous` (src/app.rs lines 467–471):
`from_repr(current_index.saturating_sub(1)).unwrap_or(self)`.
`usize::saturating_sub` is exactly `Nat` subtraction. -/
def SelectedTab.previous (t : SelectedTab) : SelectedTab :=
  (SelectedTab.fromRepr (t.toIndex - 1)).getD t

/-- Models `SelectedTab::next` (src/app.rs lines 473–477):
`from_repr(current_index.saturating_add(1)).unwrap_or(self)`.
The saturating add cannot saturate here (the index is at most 2), so it
is plain `Nat` addition. -/
def SelectedTab.next (t : SelectedTab) : SelectedTab :=
  (SelectedTab.fromRepr (t.toIndex + 1)).getD t

/-- Claim C9: tab navigation is clamped with no wraparound — `previous`
on the first tab and `next` on the last tab are no-ops, and on every
other tab `next` and `previous` move exactly one tab right or left. -/
theorem claim_C9_tab_clamped :
    SelectedTab.previous .Metrics = .Metrics ∧
    SelectedTab.next .System = .System ∧
    SelectedTab.next .Metrics = .Samples ∧
    SelectedTab.next .Samples = .System ∧
    SelectedTab.previous .Samples = .Metrics ∧
    SelectedTab.previous .System = .Samples := by
  decide

/-! Section: Metrics aggregator (src/app/metrics.rs, src/app/mod.rs)

The scylla `Metrics` snapshot is modelled by its getters: four `u64`
cumulative counters and two latency getters whose failure
(`.unwrap_or(0)`) is modelled with `Option`.  `u64` values are natural
numbers below `2^64`; the `-` on counters is modelled by wrapping
subtraction, which coincides with plain subtraction in the monotone
case the claims are about. -/

/-- A metrics snapshot, by the getters `update_metrics` calls. -/
structure Metrics : Type where
  get_queries_num : ℕ
  get_queries_iter_num : ℕ
  get_errors_num : ℕ
  get_errors_iter_num : ℕ
  get_latency_avg_ms : Option ℕ
  get_latency_percentile_ms : Option ℕ
  deriving DecidableEq

/-- The `AppState` enum (src/app/mod.rs lines 44–49). -/
inductive AppState : Type
  | Running
  | Quitting
  deriving DecidableEq

/-- The `App` struct (src/app/mod.rs lines 24–42).  The host-telemetry
fields `cpu_usage`, `memory_usage` and the `system` handle are omitted:
no modelled operation reads or is read by them. -/
structure App : Type where
  queries_num : List ℕ
  queries_iter_num : List ℕ
  errors_num : List ℕ
  errors_iter_num : List ℕ
  latency_avg_ms : List ℕ
  latency_percentile_ms : List ℕ
  queries_num_prev : ℕ
  queries_iter_num_prev : ℕ
  errors_num_prev : ℕ
  errors_iter_num_prev : ℕ
  read_logs : List String
  selected_tab : SelectedTab
  state : AppState
  deriving DecidableEq

/-- Models `App::new` (src/app/mod.rs lines 52–76): empty series, zero
previous counters, `Metrics` tab, `Running`. -/
def App.new : App :=
  { queries_num := [], queries_iter_num := [], errors_num := [], errors_iter_num := []
    latency_avg_ms := [], latency_percentile_ms := []
    queries_num_prev := 0, queries_iter_num_prev := 0
    errors_num_prev := 0, errors_iter_num_prev := 0
    read_logs := [], selected_tab := .Metrics, state := .Running }

/-- Models `u64` subtraction `a - b` with release-profile wrapping semantics,
for `a, b < 2^64`.  Under `b ≤ a` it equals plain subtraction
(`wrapping_sub_u64_eq`), which is the regime the spec asserts
("counters are monotonic upstream"). -/
def wrapping_sub_u64 (a b : ℕ) : ℕ := (a + 2 ^ 64 - b) % 2 ^ 64

/-- One `if len > 100 { remove(0) }` trim step of `trim_metrics`
(src/app/metrics.rs lines 31–50), on a single series. -/
def trim_one (s : List ℕ) : List ℕ := if 100 < s.length then s.drop 1 else s

/-- Models `App::trim_metrics` (src/app/metrics.rs lines 31–50): trim each of
the six series independently. -/
def App.trim_metrics (a : App) : App :=
  { a with
    queries_num := trim_one a.queries_num
    queries_iter_num := trim_one a.queries_iter_num
    errors_num := trim_one a.errors_num
    errors_iter_num := trim_one a.errors_iter_num
    latency_avg_ms := trim_one a.latency_avg_ms
    latency_percentile_ms := trim_one a.latency_percentile_ms }

/-- Models `App::update_metrics` (src/app/metrics.rs lines 8–29): compute the
four rate deltas against the stored previous counters, replace the
previous counters with the current ones, push the four rates and the
two pass-through latencies (defaulting to 0), then trim. -/
def App.update_metrics (a : App) (m : Metrics) : App :=
  let queries_num_rate := wrapping_sub_u64 m.get_queries_num a.queries_num_prev
  let queries_iter_num_rate := wrapping_sub_u64 m.get_queries_iter_num a.queries_iter_num_prev
  let errors_num_rate := wrapping_sub_u64 m.get_errors_num a.errors_num_prev
  let errors_iter_num_rate := wrapping_sub_u64 m.get_errors_iter_num a.errors_iter_num_prev
  App.trim_metrics
    { a with
      queries_num_prev := m.get_queries_num
      queries_iter_num_prev := m.get_queries_iter_num
      errors_num_prev := m.get_errors_num
      errors_iter_num_prev := m.get_errors_iter_num
      queries_num := a.queries_num ++ [queries_num_rate]
      queries_iter_num := a.queries_iter_num ++ [queries_iter_num_rate]
      errors_num := a.errors_num ++ [errors_num_rate]
      errors_iter_num := a.errors_iter_num ++ [errors_iter_num_rate]
      latency_avg_ms := a.latency_avg_ms ++ [m.get_latency_avg_ms.getD 0]
      latency_percentile_ms := a.latency_percentile_ms ++ [m.get_latency_percentile_ms.getD 0] }

/-- The per-series effect of one `update_metrics` call: push one value,
then trim (each series receives exactly one pushed value per update, so
the global push-all-then-trim-all order is per-series equivalent). -/
def push_sample (s : List ℕ) (v : ℕ) : List ℕ := trim_one (s ++ [v])

lemma wrapping_sub_u64_eq (a b : ℕ) (hba : b ≤ a) (ha : a < 2 ^ 64) :
    wrapping_sub_u64 a b = a - b := by
  unfold wrapping_sub_u64
  have h1 : a + 2 ^ 64 - b = (a - b) + 2 ^ 64 := by omega
  rw [h1, Nat.add_mod_right, Nat.mod_eq_of_lt (by omega)]

lemma push_sample_getLast (s : List ℕ) (v : ℕ) :
    (push_sample s v).getLast? = some v := by
  unfold push_sample trim_one
  split
  · rename_i h
    cases s with
    | nil => simp at h
    | cons x t =>
      rw [List.cons_append, List.drop_one, List.tail_cons, List.getLast?_concat]
  · exact List.getLast?_concat s

lemma push_sample_length (s : List ℕ) (v : ℕ) (h : s.length ≤ 100) :
    (push_sample s v).length ≤ 100 := by
  unfold push_sample trim_one
  split <;> rename_i h2 <;> simp_all

lemma foldl_push_sample (vs : List ℕ) : ∀ s : List ℕ, s.length ≤ 100 →
    List.foldl push_sample s vs = (s ++ vs).drop (s.length + vs.length - 100) := by
  induction vs with
  | nil =>
    intro s h
    simp [Nat.sub_eq_zero_of_le h]
  | cons v rest ih =>
    intro s h
    rw [List.foldl_cons]
    by_cases hs : s.length = 100
    · have hlen : 100 < (s ++ [v]).length := by simp [hs]
      have hdef : push_sample s v = (s ++ [v]).drop 1 := by
        unfold push_sample trim_one
        rw [if_pos hlen]
      have hslen : ((s ++ [v]).drop 1).length = 100 := by simp [hs]
      rw [hdef, ih _ (le_of_eq hslen), hslen]
      have e1 : (s ++ [v]).drop 1 ++ rest = (s ++ v :: rest).drop 1 := by
        rw [List.drop_append_of_le_length (by omega),
          List.drop_append_of_le_length (by omega)]
        simp
      have e2 : 100 + (rest.length) - 100 = rest.length := by omega
      have e3 : s.length + (v :: rest).length - 100 = 1 + rest.length := by
        simp [hs]; omega
      rw [e1, e2, e3, ← List.drop_drop]
    · have hlt : s.length < 100 := lt_of_le_of_ne h hs
      have hdef : push_sample s v = s ++ [v] := by
        unfold push_sample trim_one
        rw [if_neg (by simp; omega)]
      have hslen : (s ++ [v]).length ≤ 100 := by simp; omega
      rw [hdef, ih _ hslen]
      have e1 : (s ++ [v]) ++ rest = s ++ v :: rest := by simp
      have e2 : (s ++ [v]).length + rest.length - 100
          = s.length + (v :: rest).length - 100 := by simp; omega
      rw [e1, e2]

lemma update_queries_num (a : App) (m : Metrics) :
    (a.update_metrics m).queries_num
      = push_sample a.queries_num (wrapping_sub_u64 m.get_queries_num a.queries_num_prev) :=
  rfl

lemma update_queries_iter_num (a : App) (m : Metrics) :
    (a.update_metrics m).queries_iter_num
      = push_sample a.queries_iter_num
          (wrapping_sub_u64 m.get_queries_iter_num a.queries_iter_num_prev) :=
  rfl

lemma update_errors_num (a : App) (m : Metrics) :
    (a.update_metrics m).errors_num
      = push_sample a.errors_num (wrapping_sub_u64 m.get_errors_num a.errors_num_prev) :=
  rfl

lemma update_errors_iter_num (a : App) (m : Metrics) :
    (a.update_metrics m).errors_iter_num
      = push_sample a.errors_iter_num
          (wrapping_sub_u64 m.get_errors_iter_num a.errors_iter_num_prev) :=
  rfl

lemma update_latency_avg (a : App) (m : Metrics) :
    (a.update_metrics m).latency_avg_ms
      = push_sample a.latency_avg_ms (m.get_latency_avg_ms.getD 0) :=
  rfl

lemma update_latency_percentile (a : App) (m : Metrics) :
    (a.update_metrics m).latency_percentile_ms
      = push_sample a.latency_percentile_ms (m.get_latency_percentile_ms.getD 0) :=
  rfl

/-- Claim C7: on every metrics update, each pushed rate sample equals
the current cumulative counter minus the previously stored counter (in
the monotone, in-range regime the spec guarantees), the stored previous
value is replaced by the current one, latencies are pushed as-is with
default 0 — and concretely, counters `{queries: 100}` then
`{queries: 150}` on consecutive ticks push the rate sample 50 and leave
the internal previous at 150. -/
theorem claim_C7_rate_deltas (a : App) (m : Metrics)
    (hq : a.queries_num_prev ≤ m.get_queries_num) (hqb : m.get_queries_num < 2 ^ 64)
    (hqi : a.queries_iter_num_prev ≤ m.get_queries_iter_num)
    (hqib : m.get_queries_iter_num < 2 ^ 64)
    (he : a.errors_num_prev ≤ m.get_errors_num) (heb : m.get_errors_num < 2 ^ 64)
    (hei : a.errors_iter_num_prev ≤ m.get_errors_iter_num)
    (heib : m.get_errors_iter_num < 2 ^ 64) :
    ((a.update_metrics m).queries_num.getLast?
        = some (m.get_queries_num - a.queries_num_prev)
      ∧ (a.update_metrics m).queries_iter_num.getLast?
        = some (m.get_queries_iter_num - a.queries_iter_num_prev)
      ∧ (a.update_metrics m).errors_num.getLast?
        = some (m.get_errors_num - a.errors_num_prev)
      ∧ (a.update_metrics m).errors_iter_num.getLast?
        = some (m.get_errors_iter_num - a.errors_iter_num_prev)) ∧
    ((a.update_metrics m).queries_num_prev = m.get_queries_num
      ∧ (a.update_metrics m).queries_iter_num_prev = m.get_queries_iter_num
      ∧ (a.update_metrics m).errors_num_prev = m.get_errors_num
      ∧ (a.update_metrics m).errors_iter_num_prev = m.get_errors_iter_num) ∧
    ((a.update_metrics m).latency_avg_ms.getLast? = some (m.get_latency_avg_ms.getD 0)
      ∧ (a.update_metrics m).latency_percentile_ms.getLast?
        = some (m.get_latency_percentile_ms.getD 0)) ∧
    (((App.new.update_metrics ⟨100, 0, 0, 0, none, none⟩).update_metrics
        ⟨150, 0, 0, 0, none, none⟩).queries_num.getLast? = some 50
      ∧ ((App.new.update_metrics ⟨100, 0, 0, 0, none, none⟩).update_metrics
        ⟨150, 0, 0, 0, none, none⟩).queries_num_prev = 150) := by
  refine ⟨⟨?_, ?_, ?_, ?_⟩, ⟨rfl, rfl, rfl, rfl⟩, ⟨?_, ?_⟩, by decide⟩
  · rw [update_queries_num, wrapping_sub_u64_eq _ _ hq hqb]
    exact push_sample_getLast _ _
  · rw [update_queries_iter_num, wrapping_sub_u64_eq _ _ hqi hqib]
    exact push_sample_getLast _ _
  · rw [update_errors_num, wrapping_sub_u64_eq _ _ he heb]
    exact push_sample_getLast _ _
  · rw [update_errors_iter_num, wrapping_sub_u64_eq _ _ hei heib]
    exact push_sample_getLast _ _
  · rw [update_latency_avg]
    exact push_sample_getLast _ _
  · rw [update_latency_percentile]
    exact push_sample_getLast _ _

/-- Witness for `claim_C7_rate_deltas` at the initial `App` and a
snapshot with 100 queries: the pushed rate sample is `100 - 0`. -/
theorem claim_C7_witness :
    (App.new.update_metrics ⟨100, 0, 0, 0, none, none⟩).queries_num.getLast?
      = some (100 - 0) :=
  (claim_C7_rate_deltas App.new ⟨100, 0, 0, 0, none, none⟩ (by decide) (by norm_num)
    (by decide) (by norm_num) (by decide) (by norm_num) (by decide) (by norm_num)).1.1

/-- Claim C8: each rolling series retains exactly the most recent 100
values, oldest evicted first — iterating the per-update push-then-trim
step over any value sequence leaves the last 100 pushed values (so
pushing 1..150 leaves [51..150]); each series of `update_metrics` is
exactly that step; and after every update each series has length at
most 100 (given it did before, as it does from startup). -/
theorem claim_C8_rolling_window :
    (∀ vs : List ℕ, List.foldl push_sample [] vs = vs.drop (vs.length - 100)) ∧
    (List.foldl push_sample [] ((List.range 150).map (· + 1))
      = (List.range 100).map (· + 51)) ∧
    (∀ (a : App) (m : Metrics),
      (a.update_metrics m).queries_num
          = push_sample a.queries_num (wrapping_sub_u64 m.get_queries_num a.queries_num_prev)
        ∧ (a.update_metrics m).queries_iter_num
          = push_sample a.queries_iter_num
              (wrapping_sub_u64 m.get_queries_iter_num a.queries_iter_num_prev)
        ∧ (a.update_metrics m).errors_num
          = push_sample a.errors_num (wrapping_sub_u64 m.get_errors_num a.errors_num_prev)
        ∧ (a.update_metrics m).errors_iter_num
          = push_sample a.errors_iter_num
              (wrapping_sub_u64 m.get_errors_iter_num a.errors_iter_num_prev)
        ∧ (a.update_metrics m).latency_avg_ms
          = push_sample a.latency_avg_ms (m.get_latency_avg_ms.getD 0)
        ∧ (a.update_metrics m).latency_percentile_ms
          = push_sample a.latency_percentile_ms (m.get_latency_percentile_ms.getD 0)) ∧
    (∀ (a : App) (m : Metrics),
      (a.queries_num.length ≤ 100 ∧ a.queries_iter_num.length ≤ 100
        ∧ a.errors_num.length ≤ 100 ∧ a.errors_iter_num.length ≤ 100
        ∧ a.latency_avg_ms.length ≤ 100 ∧ a.latency_percentile_ms.length ≤ 100) →
      ((a.update_metrics m).queries_num.length ≤ 100
        ∧ (a.update_metrics m).queries_iter_num.length ≤ 100
        ∧ (a.update_metrics m).errors_num.length ≤ 100
        ∧ (a.update_metrics m).errors_iter_num.length ≤ 100
        ∧ (a.update_metrics m).latency_avg_ms.length ≤ 100
        ∧ (a.update_metrics m).latency_percentile_ms.length ≤ 100)) := by
  have hret : ∀ vs : List ℕ, List.foldl push_sample [] vs = vs.drop (vs.length - 100) := by
    intro vs
    have h := foldl_push_sample vs [] (by simp)
    simpa using h
  refine ⟨hret, ?_, ?_, ?_⟩
  · rw [hret]
    decide
  · intro a m
    exact ⟨rfl, rfl, rfl, rfl, rfl, rfl⟩
  · rintro a m ⟨h1, h2, h3, h4, h5, h6⟩
    rw [update_queries_num, update_queries_iter_num, update_errors_num,
      update_errors_iter_num, update_latency_avg, update_latency_percentile]
    exact ⟨push_sample_length _ _ h1, push_sample_length _ _ h2, push_sample_length _ _ h3,
      push_sample_length _ _ h4, push_sample_length _ _ h5, push_sample_length _ _ h6⟩

/-- Witness for `claim_C8_rolling_window`: from the initial `App`
(empty series) one update leaves the queries series with at most 100
entries. -/
theorem claim_C8_witness :
    (App.new.update_metrics ⟨100, 0, 0, 0, none, none⟩).queries_num.length ≤ 100 :=
  (claim_C8_rolling_window.2.2.2 App.new ⟨100, 0, 0, 0, none, none⟩
    (by decide)).1

/-! Section: Input handling and the display tick
(src/app/events.rs, src/app/tasks.rs `spawn_display_task`)

The polled crossterm event becomes an explicit argument (`none` models
"no event within the zero timeout" and non-key events alike).  The
`CancellationToken` is a one-way boolean flag; the display tick only
ever *reads* it — nothing in the source calls `cancel()`. -/

/-- The key codes `handle_events` distinguishes; all others are
collapsed into `Other`. -/
inductive KeyCode : Type
  | Char (c : Char)
  | Right
  | Left
  | Esc
  | Other
  deriving DecidableEq

/-- A key event: code, whether CONTROL is among the modifiers, and
whether the event kind is `Press`. -/
structure KeyEvent : Type where
  code : KeyCode
  ctrl : Bool
  press : Bool
  deriving DecidableEq

/-- Models `App::next_tab` (src/app/events.rs lines 30–32). -/
def App.next_tab (a : App) : App := { a with selected_tab := a.selected_tab.next }

/-- Models `App::previous_tab` (src/app/events.rs lines 34–36). -/
def App.previous_tab (a : App) : App := { a with selected_tab := a.selected_tab.previous }

/-- Models `App::quit` (src/app/events.rs lines 38–40): set the state to
`Quitting`.  This is all it does — in particular it does not touch the
cancellation token. -/
def App.quit (a : App) : App := { a with state := AppState.Quitting }

/-- Models `App::handle_events` (src/app/events.rs lines 8–28).  The match
arms: `l`/Right → next tab, `h`/Left → previous tab, `q`/Esc → quit,
`c` with CONTROL → quit, anything else ignored; non-press events and an
empty poll are ignored.  Every path returns `Ok(())`, so the `Result`
is left implicit. -/
def App.handle_events (a : App) (ev : Option KeyEvent) : App :=
  match ev with
  | none => a
  | some key =>
    if key.press then
      match key.code with
      | .Char 'l' => a.next_tab
      | .Right => a.next_tab
      | .Char 'h' => a.previous_tab
      | .Left => a.previous_tab
      | .Char 'q' => a.quit
      | .Esc => a.quit
      | .Char 'c' => if key.ctrl then a.quit else a
      | _ => a
    else a

/-- One appended read sample in the display loop's drain
(src/app/tasks.rs lines 158–164): push the row, then drop the oldest
entry if the log exceeds 100. -/
def App.push_read_log (a : App) (row : String) : App :=
  let logs := a.read_logs ++ [row]
  { a with read_logs := if 100 < logs.length then logs.drop 1 else logs }

/-- One iteration of the display loop in `spawn_display_task`
(src/app/tasks.rs lines 150–181), effects made explicit: the metrics
snapshot, the drained rows and the polled key event are inputs; the
result is the updated `App`, the cancellation token as the tick leaves
it, and whether the loop breaks.  Rendering and the host-telemetry
refresh touch none of the modelled fields; draw/input errors are logged
and do not change control flow. -/
def display_tick (a : App) (token_cancelled : Bool) (m : Metrics)
    (rows : List String) (ev : Option KeyEvent) : App × Bool × Bool :=
  let a1 := a.update_metrics m
  let a2 := rows.foldl App.push_read_log a1
  let a3 := a2.handle_events ev
  (a3, token_cancelled, (a3.state == AppState.Quitting) || token_cancelled)

/-- Models `cancellation_token.is_cancelled()` as read at the top of each
worker iteration (src/app/tasks.rs lines 65 and 116). -/
def worker_observes_cancellation (token_cancelled : Bool) : Bool := token_cancelled

/-- Claim C2, counterexample: a `q` key press on the initial state sets
the dashboard state to `Quitting` but leaves the cancellation token
un-cancelled — nothing in the source ever calls `cancel()`, so the
claim that the handler "flips the shared CancellationSignal to
cancelled" fails, and worker loops observe no cancellation. -/
theorem claim_C2_counterexample :
    (display_tick App.new false ⟨0, 0, 0, 0, none, none⟩ []
        (some ⟨.Char 'q', false, true⟩)).1.state = AppState.Quitting ∧
    (display_tick App.new false ⟨0, 0, 0, 0, none, none⟩ []
        (some ⟨.Char 'q', false, true⟩)).2.1 = false ∧
    worker_observes_cancellation
      (display_tick App.new false ⟨0, 0, 0, 0, none, none⟩ []
        (some ⟨.Char 'q', false, true⟩)).2.1 = false := by
  decide

/-- Claim C2, amended: a `q`, Esc or Ctrl+C key press makes the display
tick set the state to `Quitting` and break out of the loop, but the
shared cancellation token is left exactly as it was — the handler never
flips it (no code does), so worker loops do not subsequently observe
cancellation through it. -/
theorem claim_C2_amended (a : App) (tok : Bool) (m : Metrics) (rows : List String)
    (key : KeyEvent) (hpress : key.press = true)
    (hcode : key.code = .Char 'q' ∨ key.code = .Esc
      ∨ (key.code = .Char 'c' ∧ key.ctrl = true)) :
    (display_tick a tok m rows (some key)).1.state = AppState.Quitting ∧
    (display_tick a tok m rows (some key)).2.1 = tok ∧
    (display_tick a tok m rows (some key)).2.2 = true ∧
    worker_observes_cancellation (display_tick a tok m rows (some key)).2.1 = tok := by
  obtain ⟨code, ctrl, press⟩ := key
  simp only at hpress
  subst hpress
  rcases hcode with h | h | ⟨h, hctrl⟩ <;> simp only at h <;> subst h
  · simp [display_tick, App.handle_events, App.quit, worker_observes_cancellation]
  · simp [display_tick, App.handle_events, App.quit, worker_observes_cancellation]
  · simp only at hctrl
    subst hctrl
    simp [display_tick, App.handle_events, App.quit, worker_observes_cancellation]

/-- Witness for `claim_C2_amended`: an Esc press on the initial state
with an un-cancelled token. -/
theorem claim_C2_witness :
    (display_tick App.new false ⟨1, 2, 3, 4, some 5, some 6⟩ ["row"]
        (some ⟨.Esc, false, true⟩)).1.state = AppState.Quitting ∧
    (display_tick App.new false ⟨1, 2, 3, 4, some 5, some 6⟩ ["row"]
        (some ⟨.Esc, false, true⟩)).2.1 = false ∧
    (display_tick App.new false ⟨1, 2, 3, 4, some 5, some 6⟩ ["row"]
        (some ⟨.Esc, false, true⟩)).2.2 = true ∧
    worker_observes_cancellation
      (display_tick App.new false ⟨1, 2, 3, 4, some 5, some 6⟩ ["row"]
        (some ⟨.Esc, false, true⟩)).2.1 = false :=
  claim_C2_amended App.new false ⟨1, 2, 3, 4, some 5, some 6⟩ ["row"]
    ⟨.Esc, false, true⟩ rfl (Or.inr (Or.inl rfl))

/-! Section: Worker loop iterations and the launchers (src/app/tasks.rs)

One reader/writer loop iteration is embedded as a function of the store
call's result; a tokio task that hits `.expect` on an `Err` dies with a
panic, every other path reaches the cancellation check and the next
iteration. -/

/-- The fate of a worker-loop iteration (or of a launcher task). -/
inductive StepOutcome : Type
  | proceeds
  | panicked (msg : String)
  deriving DecidableEq

/-- One writer-loop iteration (src/app/tasks.rs lines 108–118), given
the result of `execute_unpaged`: an `Err` is logged
(`error!("Error inserting payload: ...")`) and the loop proceeds; so
does an `Ok`.  Returns the outcome and the logged messages. -/
def write_iteration (execResult : Except String Unit) : StepOutcome × List String :=
  match execResult with
  | .error e => (.proceeds, ["Error inserting payload: " ++ e])
  | .ok _ => (.proceeds, [])

/-- One reader-loop iteration (src/app/tasks.rs lines 40–67), given the
result of `execute_iter` where an `Ok` carries the row stream (each row
itself `Ok` payload or `Err`).  A failing `execute_iter` hits
`.expect("Failed to execute query")` and the task panics; row errors
are logged and the stream drain continues.  Returns the outcome, the
formatted payloads sent to the notification queue (the sender assumed
alive — a dead receiver only breaks the drain early), and the logged
row errors. -/
def read_iteration (execResult : Except String (List (Except String String))) :
    StepOutcome × List String × List String :=
  match execResult with
  | .error _ => (.panicked "Failed to execute query", [], [])
  | .ok rows =>
    (.proceeds,
      rows.filterMap (fun r => match r with | .ok p => some p | .error _ => none),
      rows.filterMap
        (fun r => match r with
          | .ok _ => none
          | .error e => some ("Error reading payload: " ++ e)))

/-- Claim C4, counterexample: a store execute failure in a *reader*
iteration is fatal — `execute_iter(...).expect(...)` panics the worker
task instead of logging and continuing. -/
theorem claim_C4_counterexample :
    (read_iteration (.error "io error")).1 = .panicked "Failed to execute query" ∧
    (read_iteration (.error "io error")).1 ≠ .proceeds := by
  decide

/-- Claim C4, amended: in writer loops an execute failure is non-fatal
— logged and the loop proceeds — and in reader loops every *row* error
of a successfully started stream is non-fatal; but a failing
`execute_iter` call itself panics that reader worker. -/
theorem claim_C4_amended :
    (∀ r : Except String Unit, (write_iteration r).1 = .proceeds) ∧
    (∀ e : String, (write_iteration (.error e)).2 = ["Error inserting payload: " ++ e]) ∧
    (∀ rows : List (Except String String), (read_iteration (.ok rows)).1 = .proceeds) ∧
    (∀ e : String, (read_iteration (.error e)).1 = .panicked "Failed to execute query") := by
  refine ⟨?_, fun e => rfl, fun rows => rfl, fun e => rfl⟩
  intro r
  cases r <;> rfl

/-- A prepared statement handle, identified by its query text. -/
abbrev Stmt := String

/-- The body of a launcher task (`spawn_read_task` lines 28–85 /
`spawn_write_task` lines 97–136 of src/app/tasks.rs): for each of the
configured workers, prepare the statement —
`.expect(panicMsg)` panics the launcher on failure — then spawn the
worker loop.  The input list holds the prepare results in worker order;
the output is the list of workers actually spawned and the launcher's
fate. -/
def launch_workers (panicMsg : String) : List (Except String Stmt) → List Stmt × StepOutcome
  | [] => ([], .proceeds)
  | .ok s :: rest =>
    let r := launch_workers panicMsg rest
    (s :: r.1, r.2)
  | .error _ :: _ => ([], .panicked panicMsg)

/-- Models `App::run` (src/app/mod.rs lines 270–294):
`tokio::try_join!(read_task, write_task, display_task)?` — a panicked
launcher joins as an error, which `?` propagates out of `run`.  The
display task is modelled as completing normally (its loop exits via the
state/token check and tears the terminal down). -/
def run_outcome (readPreps writePreps : List (Except String Stmt)) : Except String Unit :=
  match (launch_workers "Failed to prepare SELECT statement" readPreps).2 with
  | .panicked msg => .error msg
  | .proceeds =>
    match (launch_workers "Failed to prepare INSERT statement" writePreps).2 with
    | .panicked msg => .error msg
    | .proceeds => .ok ()

/-- Claim C5, counterexample: with two configured readers whose prepare
results are [failure, success], the failing first prepare panics the
launcher, so the *second* worker is never spawned (other workers are
affected) and `run` as a whole aborts with an error (the run does not
survive it). -/
theorem claim_C5_counterexample :
    (launch_workers "Failed to prepare SELECT statement"
        [.error "connection reset", .ok "SELECT"]).1 = [] ∧
    (launch_workers "Failed to prepare SELECT statement"
        [.error "connection reset", .ok "SELECT"]).2
      = .panicked "Failed to prepare SELECT statement" ∧
    run_outcome [.error "connection reset", .ok "SELECT"] []
      = .error "Failed to prepare SELECT statement" ∧
    run_outcome [.error "connection reset", .ok "SELECT"] [] ≠ .ok () :=
  ⟨rfl, rfl, rfl, fun h => Except.noConfusion h⟩

lemma launch_workers_ok_prefix (panicMsg e : String) (pre : List Stmt)
    (post : List (Except String Stmt)) :
    launch_workers panicMsg (pre.map Except.ok ++ .error e :: post)
      = (pre, .panicked panicMsg) := by
  induction pre with
  | nil => rfl
  | cons s rest ih => simp [launch_workers, ih]

lemma launch_workers_all_ok (panicMsg : String) (pre : List Stmt) :
    launch_workers panicMsg (pre.map Except.ok) = (pre, .proceeds) := by
  induction pre with
  | nil => rfl
  | cons s rest ih => simp [launch_workers, ih]

/-- Claim C5, amended: a prepare-time failure panics the whole launcher
task of that worker kind — the workers before the failing one are
spawned and keep running, every later worker of that kind is never
spawned, and the launcher's join error aborts `run` with an error (when
every prepare succeeds, all workers spawn and `run` proceeds). -/
theorem claim_C5_amended (e : String) (pre writers : List Stmt)
    (post : List (Except String Stmt)) :
    (∀ panicMsg : String,
      launch_workers panicMsg (pre.map Except.ok ++ .error e :: post)
        = (pre, .panicked panicMsg)) ∧
    (∀ panicMsg : String,
      launch_workers panicMsg (pre.map Except.ok) = (pre, .proceeds)) ∧
    run_outcome (pre.map Except.ok ++ .error e :: post) (writers.map Except.ok)
      = .error "Failed to prepare SELECT statement" ∧
    run_outcome (pre.map Except.ok) (writers.map Except.ok) = .ok () := by
  refine ⟨fun p => launch_workers_ok_prefix p e pre post,
    fun p => launch_workers_all_ok p pre, ?_, ?_⟩
  · simp [run_outcome, launch_workers_ok_prefix]
  · simp [run_outcome, launch_workers_all_ok]

/-! Section: Distribution weight tables and the cache payload generators
(src/db/models/cache.rs, src/db/models/timeseries.rs) -/

/-- The weight-table construction shared by `WEIGHTS_NORMAL`,
`WEIGHTS_POISSON`, `WEIGHTS_BINOMIAL`, `WEIGHTS_GEOMETRIC` and
`WEIGHTS_ZIPF` (src/db/models/cache.rs lines 48–113 and
src/db/models/timeseries.rs lines 50–115): `weights` starts as
`vec![0; c]` with `c` the candidate-set size; the loop visits each slot
in order, draws one value from the distribution, and increments *the
slot currently being visited* when the draw — rounded and cast to
`usize` (`Int.toNat` models the saturating cast of a negative value to
0) — is below `c`.  `draws i` is the i-th drawn, rounded value. -/
def build_weights (c : ℕ) (draws : ℕ → ℤ) : List ℕ :=
  (List.range c).map (fun i => if (draws i).toNat < c then 1 else 0)

/-- The construction the spec describes instead, named for comparison:
the index histogram of the draws — the weight at index `i` counts the
draws whose rounded value equals `i` (each such value lies in
`[0, c)`). -/
def weights_histogram (c : ℕ) (draws : ℕ → ℤ) : List ℕ :=
  (List.range c).map
    (fun i => ((List.range c).filter (fun j => draws j = (i : ℤ))).length)

/-- Claim C1, code evaluation at the failing input: with cardinality 2
and both draws equal to 0, the source builds the weight vector
`[1, 1]` — each slot was incremented because *its own* draw was in
range — whereas the histogram of the draws the claim describes is
`[2, 0]`.  The two differ: the built table is a 0/1 in-range indicator
per slot, not a histogram bucketed at the drawn index, so the chosen
distribution leaves no skew in the table. -/
theorem claim_C1_code_eval :
    build_weights 2 (fun _ => 0) = [1, 1] ∧
    weights_histogram 2 (fun _ => 0) = [2, 0] ∧
    build_weights 2 (fun _ => 0) ≠ weights_histogram 2 (fun _ => 0) := by
  decide

/-- The outcomes of the random primitives one cache-payload call uses:
`Uuid::new_v4()` (UUIDs are modelled as naturals), the index picked by
`SliceRandom::choose`, the index sampled from the `WeightedIndex`
table, and `gen_range(0..100)`. -/
structure Rng : Type where
  fresh_uuid : ℕ
  choose_index : ℕ
  weighted_index : ℕ
  gen_temperature : ℕ

/-- Models `device_id` (src/db/models/cache.rs lines 115–132), with the
candidate set `DEVICES`, the value this call reads from
`SEQUENTIAL_INDEX_A`, and the rng explicit.  `choose` and
`WeightedIndex::sample` return valid indices of the nonempty
slice/table; `% devices.length` keeps the model total without changing
any in-range behaviour. -/
def device_id (distribution : String) (devices : List ℕ) (seq_index : ℕ)
    (rng : Rng) : ℕ :=
  if distribution = "sequential" then
    devices.getD (seq_index % devices.length) 0
  else if distribution = "uniform" then
    devices.getD (rng.choose_index % devices.length) 0
  else if distribution = "normal" ∨ distribution = "poisson"
      ∨ distribution = "binomial" ∨ distribution = "geometric"
      ∨ distribution = "zipf" then
    devices.getD (rng.weighted_index % devices.length) 0
  else
    devices.getD (rng.choose_index % devices.length) 0

/-- The `Cache` write payload (src/db/models/cache.rs lines 134–138). -/
structure Cache : Type where
  device_id : ℕ
  temperature : ℕ

/-- The `CacheValues` read payload (src/db/models/cache.rs
lines 140–143). -/
structure CacheValues : Type where
  device_id : ℕ

/-- Models `Cache::insert_values` (src/db/models/cache.rs lines 150–156): the
write key is drawn by `device_id` according to the distribution, the
temperature by `gen_range(0..100)`. -/
def Cache.insert_values (distribution : String) (devices : List ℕ) (seq_index : ℕ)
    (rng : Rng) : Cache :=
  { device_id := Skylar.device_id distribution devices seq_index rng
    temperature := rng.gen_temperature }

/-- Models `CacheValues::select_values` (src/db/models/cache.rs lines
164–168): the distribution parameter is bound to `_` and ignored; the
read key is a freshly generated `Uuid::new_v4()`, not a lookup into
`DEVICES`. -/
def CacheValues.select_values (_distribution : String) (rng : Rng) : CacheValues :=
  { device_id := rng.fresh_uuid }

lemma getD_mod_mem (devices : List ℕ) (k : ℕ) (h : devices ≠ []) :
    devices.getD (k % devices.length) 0 ∈ devices := by
  have hlen : 0 < devices.length := List.length_pos.mpr h
  have hidx : k % devices.length < devices.length := Nat.mod_lt _ hlen
  rw [List.getD_eq_getElem?_getD, List.getElem?_eq_getElem hidx]
  exact List.getElem_mem hidx

/-- Claim C10: the cache read-key generator ignores the distribution
entirely — for any two distribution strings and the same rng it returns
the same payload, namely the fresh UUID, which is not drawn from the
candidate set (whenever the fresh UUID is not accidentally in the set,
neither is the returned key) — unlike cache writes, whose key always
comes from the candidate set via the distribution sampler. -/
theorem claim_C10_cache_read_keys :
    (∀ (d₁ d₂ : String) (rng : Rng),
      CacheValues.select_values d₁ rng = CacheValues.select_values d₂ rng) ∧
    (∀ (d : String) (rng : Rng),
      (CacheValues.select_values d rng).device_id = rng.fresh_uuid) ∧
    (∀ (d : String) (rng : Rng) (devices : List ℕ),
      rng.fresh_uuid ∉ devices →
        (CacheValues.select_values d rng).device_id ∉ devices) ∧
    (∀ (d : String) (devices : List ℕ) (seq_index : ℕ) (rng : Rng),
      devices ≠ [] →
        (Cache.insert_values d devices seq_index rng).device_id ∈ devices) := by
  refine ⟨fun d₁ d₂ rng => rfl, fun d rng => rfl, fun d rng devices h => h, ?_⟩
  intro d devices seq_index rng h
  unfold Cache.insert_values Skylar.device_id
  split_ifs <;> exact getD_mod_mem _ _ h

/-- Witness for `claim_C10_cache_read_keys`: with candidate set
`[10, 20, 30]` and a fresh UUID 5, the read key 5 is outside the
candidate set while the written key is inside it, for every
distribution. -/
theorem claim_C10_witness :
    (CacheValues.select_values "zipf" ⟨5, 1, 2, 42⟩).device_id ∉ [10, 20, 30] ∧
    (Cache.insert_values "zipf" [10, 20, 30] 0 ⟨5, 1, 2, 42⟩).device_id ∈ [10, 20, 30] :=
  ⟨claim_C10_cache_read_keys.2.2.1 "zipf" ⟨5, 1, 2, 42⟩ [10, 20, 30] (by decide),
    claim_C10_cache_read_keys.2.2.2 "zipf" [10, 20, 30] 0 ⟨5, 1, 2, 42⟩ (by decide)⟩

end Skylar
